import Mathlib

/-!
Shallow embedding of the noise-reduce core of DLO-HiC-Tools
(src/dlo_hic/tools/main_process/noise_reduce.py): the fragment locator
`find_frag`, the interaction classifier `bedpe_type`, and the per-record
processing step of `worker`.  Python exceptions (AssertionError, IndexError,
KeyError, TypeError) are modelled with `Except PyErr`; numpy arrays are
modelled as `List Int` with Python/numpy indexing semantics (one negative
wrap-around, out-of-range raises IndexError); `numpy.searchsorted` with
`side='right'` on a sorted array returns the number of elements `≤` the
query, which is how it is embedded here.
-/

/-- Python exceptions that the embedded code can raise. -/
inductive PyErr where
  | keyError
  | assertionError
  | indexError
  | typeError
deriving DecidableEq

/-- Fragment side tag: the source uses the characters `'s'` and `'e'`. -/
inductive Side where
  | Start
  | End
deriving DecidableEq

/-- A fragment reference: index of the fragment and a side tag,
exactly the pair `(frag_idx, pos)` returned by `find_frag`. -/
abbrev Frag := Nat × Side

deriving instance DecidableEq for Except

/-- Embedding of `numpy.ndarray.searchsorted(v, side='right')` on a sorted
array: the insertion index, i.e. the number of elements `≤ v`. -/
def searchsorted_right (sites : List Int) (v : Int) : Nat :=
  sites.countP (fun x => decide (x ≤ v))

/-- Effective index of Python/numpy scalar indexing: a negative index wraps
around once by adding the length. -/
def npIndex (sites : List Int) (i : Int) : Int :=
  if i < 0 then i + (sites.length : Int) else i

/-- Python/numpy scalar indexing `sites[i]`: a negative index wraps around
once by adding the length; an index still out of range raises IndexError. -/
def npGet (sites : List Int) (i : Int) : Except PyErr Int :=
  if 0 ≤ npIndex sites i then
    match sites.get? (npIndex sites i).toNat with
    | some v => Except.ok v
    | none => Except.error PyErr.indexError
  else
    Except.error PyErr.indexError

/-- Embedding of `find_frag` (noise_reduce.py lines 46-114).  The
`assert start < end_search_point` is modelled as AssertionError; the array
reads `sites[frag_idx - 1]`, `sites[frag_idx]`, `sites[frag_idx_e]` are
performed eagerly, in source order, before the positional case split — as
in the source, where they can raise IndexError. -/
def find_frag (sites : List Int) (start : Int) (end_ : Int)
    (rest_site_len : Int) : Except PyErr Frag :=
  let end_search_point := end_ - rest_site_len - 1
  if start < end_search_point then
    let mid := Int.fdiv (start + end_) 2
    let frag_idx_s := searchsorted_right sites start
    let frag_idx_e := searchsorted_right sites end_search_point
    if frag_idx_s = frag_idx_e then
      -- PET start and end located into same fragment
      let frag_idx := frag_idx_s
      match npGet sites ((frag_idx : Int) - 1), npGet sites (frag_idx : Int) with
      | Except.ok frag_start, Except.ok frag_end =>
        if frag_idx = 0 then
          Except.ok (frag_idx, Side.End)
        else if frag_idx = sites.length then
          Except.ok (frag_idx, Side.Start)
        else
          let left_span := mid - frag_start
          let right_span := frag_end - mid
          if left_span < right_span then
            Except.ok (frag_idx, Side.Start)
          else
            Except.ok (frag_idx, Side.End)
      | Except.error e, _ => Except.error e
      | _, Except.error e => Except.error e
    else
      match npGet sites ((frag_idx_s : Int) - 1), npGet sites (frag_idx_s : Int),
            npGet sites (frag_idx_e : Int) with
      | Except.ok frag_start, Except.ok _mid_frag_pos, Except.ok frag_end =>
        if frag_idx_s = 0 then
          Except.ok (frag_idx_s, Side.End)
        else if frag_idx_e = sites.length then
          Except.ok (frag_idx_e, Side.Start)
        else
          let left_span := start - frag_start
          let right_span := frag_end - end_search_point - 1
          if left_span < right_span then
            Except.ok (frag_idx_s, Side.Start)
          else
            Except.ok (frag_idx_e, Side.End)
      | Except.error e, _, _ => Except.error e
      | Except.ok _, Except.error e, _ => Except.error e
      | Except.ok _, Except.ok _, Except.error e => Except.error e
  else
    Except.error PyErr.assertionError

/-- One parsed bedpe record: the first six fields plus opaque passthrough
fields (`bedpe_items[:6]` and the rest). -/
structure Bedpe where
  chr1 : String
  start1 : Int
  end1 : Int
  chr2 : String
  start2 : Int
  end2 : Int
  rest : List String
deriving DecidableEq

/-- Python dict lookup `rest_sites[chr_]` on the restriction-site index,
raising KeyError when the chromosome is absent. -/
def lookupChr (rest_sites : List (String × List Int)) (chr_ : String) :
    Except PyErr (List Int) :=
  match rest_sites.find? (fun p => p.1 == chr_) with
  | some p => Except.ok p.2
  | none => Except.error PyErr.keyError

/-- The three-way classification of lines 178-183 of noise_reduce.py,
factored out verbatim: same fragment index is self-ligation; index
difference exactly one with sides end/start is re-ligation; otherwise
normal. -/
def classify_frags (f1 f2 : Frag) : String :=
  if f1.1 = f2.1 then
    "self-ligation"
  else if (f2.1 : Int) - (f1.1 : Int) = 1 ∧ f2.2 = Side.Start ∧ f1.2 = Side.End then
    "re-ligation"
  else
    "normal"

/-- Embedding of `bedpe_type` (noise_reduce.py lines 134-183).  Dict
lookups and `find_frag` calls are sequenced in source order so the same
exception propagates. -/
def bedpe_type (rest_sites : List (String × List Int)) (it : Bedpe)
    (threshold_span : Int) (rest_site_len : Int) :
    Except PyErr (String × Option Frag × Option Frag) :=
  if it.chr1 ≠ it.chr2 then
    -- inter chromosome interaction
    if threshold_span ≠ -1 then
      Except.ok ("normal", none, none)
    else
      match lookupChr rest_sites it.chr1 with
      | Except.error e => Except.error e
      | Except.ok s1 =>
        match find_frag s1 it.start1 it.end1 rest_site_len with
        | Except.error e => Except.error e
        | Except.ok f1 =>
          match lookupChr rest_sites it.chr2 with
          | Except.error e => Except.error e
          | Except.ok s2 =>
            match find_frag s2 it.start2 it.end2 rest_site_len with
            | Except.error e => Except.error e
            | Except.ok f2 => Except.ok ("normal", some f1, some f2)
  else
    -- intra chromosome interaction
    let span := |it.start1 - it.start2|
    if span > threshold_span ∧ threshold_span ≠ -1 then
      -- safe span: interaction distance enough long
      Except.ok ("normal", none, none)
    else
      -- unsafe span, need to check
      match lookupChr rest_sites it.chr1 with
      | Except.error e => Except.error e
      | Except.ok sites =>
        match find_frag sites it.start1 it.end1 rest_site_len with
        | Except.error e => Except.error e
        | Except.ok f1 =>
          match find_frag sites it.start2 it.end2 rest_site_len with
          | Except.error e => Except.error e
          | Except.ok f2 => Except.ok (classify_frags f1 f2, some f1, some f2)

/-- Side tag as printed by Python in the output line. -/
def side_str : Side → String
  | Side.Start => "s"
  | Side.End => "e"

/-- The `"{}-{}"` fragment field of the output line. -/
def frag_str (f : Frag) : String :=
  toString f.1 ++ "-" ++ side_str f.2

/-- String forms of the record fields, in the order joined by the worker. -/
def bedpe_strs (it : Bedpe) : List String :=
  [it.chr1, toString it.start1, toString it.end1,
   it.chr2, toString it.start2, toString it.end2] ++ it.rest

/-- Output-line construction of worker lines 219-222: the tab-joined
fields, and when `frag1` is truthy the two fragment fields are appended —
subscripting `frag2` raises TypeError if it were None. -/
def mk_out_line (it : Bedpe) (frag1 frag2 : Option Frag) : Except PyErr String :=
  let base := String.intercalate "\t" (bedpe_strs it)
  match frag1 with
  | none => Except.ok (base ++ "\n")
  | some f1 =>
    match frag2 with
    | none => Except.error PyErr.typeError
    | some f2 =>
      Except.ok (base ++ "\t" ++ frag_str f1 ++ "\t" ++ frag_str f2 ++ "\n")

/-- State of one worker: its three per-category output sinks and the local
counters `l_counts = (normal, sel, re)`. -/
structure WorkerState where
  out_lines : List String
  sel_lines : List String
  re_lines : List String
  n_normal : Nat
  n_sel : Nat
  n_re : Nat
deriving DecidableEq

/-- The empty worker state at worker start. -/
def initWorkerState : WorkerState := ⟨[], [], [], 0, 0, 0⟩

/-- Per-record step of `worker` (noise_reduce.py lines 212-232): a KeyError
from `bedpe_type` is caught and the record skipped; any other exception
propagates; otherwise the output line is written to the sink matching the
classification and the matching local counter is incremented. -/
def process_item (rest_sites : List (String × List Int))
    (threshold_span rest_site_len : Int)
    (st : WorkerState) (it : Bedpe) : Except PyErr WorkerState :=
  match bedpe_type rest_sites it threshold_span rest_site_len with
  | Except.error PyErr.keyError => Except.ok st
  | Except.error e => Except.error e
  | Except.ok (type_, frag1, frag2) =>
    match mk_out_line it frag1 frag2 with
    | Except.error e => Except.error e
    | Except.ok line =>
      if type_ = "normal" then
        Except.ok { st with out_lines := st.out_lines ++ [line],
                            n_normal := st.n_normal + 1 }
      else if type_ = "self-ligation" then
        Except.ok { st with sel_lines := st.sel_lines ++ [line],
                            n_sel := st.n_sel + 1 }
      else if type_ = "re-ligation" then
        Except.ok { st with re_lines := st.re_lines ++ [line],
                            n_re := st.n_re + 1 }
      else
        Except.ok st

/-- Swapping the two ends of a pair record. -/
def swapBedpe (it : Bedpe) : Bedpe :=
  ⟨it.chr2, it.start2, it.end2, it.chr1, it.start1, it.end1, it.rest⟩

/-! Helper lemmas shared by several theorems. -/

/-- Reading at a valid effective index succeeds. -/
theorem npGet_ok_of_get? (sites : List Int) (i : Int) (v : Int)
    (h0 : 0 ≤ npIndex sites i) (hg : sites.get? (npIndex sites i).toNat = some v) :
    npGet sites i = Except.ok v := by
  simp only [npGet, if_pos h0, hg]

/-- The effective index of a nonnegative index is itself. -/
theorem npIndex_of_nonneg (sites : List Int) (i : Int) (hi : 0 ≤ i) :
    npIndex sites i = i := by
  simp only [npIndex, if_neg (by omega : ¬ i < 0)]

/-- Indexing a non-empty list at `-1` succeeds (wraps to the last entry). -/
theorem npGet_neg_one_ok (sites : List Int) (hne : sites ≠ []) :
    ∃ v, npGet sites (-1) = Except.ok v := by
  have hlen : 0 < sites.length := List.length_pos.mpr hne
  have hj : npIndex sites (-1) = (sites.length : Int) - 1 := by
    simp only [npIndex, if_pos (by omega : (-1 : Int) < 0)]
    omega
  have hjn : (npIndex sites (-1)).toNat = sites.length - 1 := by omega
  have hget : sites.get? (sites.length - 1) =
      some (sites.get ⟨sites.length - 1, by omega⟩) := List.get?_eq_get (by omega)
  exact ⟨_, npGet_ok_of_get? sites (-1) _ (by omega) (by rw [hjn, hget])⟩

/-- Indexing at an in-bounds natural index succeeds. -/
theorem npGet_nat_ok (sites : List Int) (n : Nat) (hn : n < sites.length) :
    ∃ v, npGet sites (n : Int) = Except.ok v := by
  have hj : npIndex sites (n : Int) = (n : Int) := npIndex_of_nonneg _ _ (by omega)
  have hjn : (npIndex sites (n : Int)).toNat = n := by omega
  have hget : sites.get? n = some (sites.get ⟨n, hn⟩) := List.get?_eq_get hn
  exact ⟨_, npGet_ok_of_get? sites (n : Int) _ (by omega) (by rw [hjn, hget])⟩

/-- The right-biased insertion point is `0` when every site is strictly
greater than the query. -/
theorem searchsorted_right_eq_zero (sites : List Int) (v : Int)
    (h : ∀ x ∈ sites, v < x) : searchsorted_right sites v = 0 := by
  unfold searchsorted_right
  rw [List.countP_eq_zero]
  intro a ha
  simp only [decide_eq_true_eq]
  exact not_le.mpr (h a ha)

/-- The right-biased insertion point is the length when every site is at
most the query. -/
theorem searchsorted_right_eq_length (sites : List Int) (v : Int)
    (h : ∀ x ∈ sites, x ≤ v) : searchsorted_right sites v = sites.length := by
  unfold searchsorted_right
  rw [List.countP_eq_length]
  intro a ha
  simp only [decide_eq_true_eq]
  exact h a ha

/-- Evaluation of `bedpe_type` on the intra-chromosomal mapping path: same
chromosome, the safe-span short-circuit not taken, chromosome present and
both `find_frag` calls succeeding. -/
theorem bedpe_type_intra_eq (rest_sites : List (String × List Int)) (it : Bedpe)
    (t rsl : Int) (sites : List Int) (f1 f2 : Frag)
    (hchr : it.chr1 = it.chr2)
    (hpath : ¬(|it.start1 - it.start2| > t ∧ t ≠ -1))
    (hlk : lookupChr rest_sites it.chr1 = Except.ok sites)
    (h1 : find_frag sites it.start1 it.end1 rsl = Except.ok f1)
    (h2 : find_frag sites it.start2 it.end2 rsl = Except.ok f2) :
    bedpe_type rest_sites it t rsl =
      Except.ok (classify_frags f1 f2, some f1, some f2) := by
  have hc : ¬ (it.chr1 ≠ it.chr2) := not_not_intro hchr
  simp only [bedpe_type, if_neg hc, if_neg hpath, hlk, h1, h2]

/-- The classifier answers self-ligation exactly for equal fragment
indices. -/
theorem classify_frags_eq_self (f1 f2 : Frag) :
    classify_frags f1 f2 = "self-ligation" ↔ f1.1 = f2.1 := by
  have hrs : ("re-ligation" : String) ≠ "self-ligation" := by decide
  have hns : ("normal" : String) ≠ "self-ligation" := by decide
  by_cases h : f1.1 = f2.1
  · simp [classify_frags, h]
  · by_cases h2 : (f2.1 : Int) - (f1.1 : Int) = 1 ∧ f2.2 = Side.Start ∧ f1.2 = Side.End
    · simp [classify_frags, h, h2, hrs]
    · simp [classify_frags, h, h2, hns]

/-- The classifier answers re-ligation exactly for index difference one in
the end-then-start orientation. -/
theorem classify_frags_eq_re (f1 f2 : Frag) :
    classify_frags f1 f2 = "re-ligation" ↔
      ((f2.1 : Int) - (f1.1 : Int) = 1 ∧ f2.2 = Side.Start ∧ f1.2 = Side.End) := by
  have hsr : ("self-ligation" : String) ≠ "re-ligation" := by decide
  have hnr : ("normal" : String) ≠ "re-ligation" := by decide
  by_cases h : f1.1 = f2.1
  · have hno : ¬((f2.1 : Int) - (f1.1 : Int) = 1 ∧ f2.2 = Side.Start ∧ f1.2 = Side.End) := by
      rintro ⟨hd, -, -⟩
      omega
    simp [classify_frags, h, hsr, hno]
  · by_cases h2 : (f2.1 : Int) - (f1.1 : Int) = 1 ∧ f2.2 = Side.Start ∧ f1.2 = Side.End
    · simp [classify_frags, h, h2]
    · simp [classify_frags, h, h2, hnr]

/-- The classifier answers normal exactly when neither artifact rule
fires. -/
theorem classify_frags_eq_normal (f1 f2 : Frag) :
    classify_frags f1 f2 = "normal" ↔
      (¬ f1.1 = f2.1 ∧
       ¬((f2.1 : Int) - (f1.1 : Int) = 1 ∧ f2.2 = Side.Start ∧ f1.2 = Side.End)) := by
  have hsn : ("self-ligation" : String) ≠ "normal" := by decide
  have hrn : ("re-ligation" : String) ≠ "normal" := by decide
  by_cases h : f1.1 = f2.1
  · simp [classify_frags, h, hsn]
  · by_cases h2 : (f2.1 : Int) - (f1.1 : Int) = 1 ∧ f2.2 = Side.Start ∧ f1.2 = Side.End
    · simp [classify_frags, h, h2, hrn]
    · simp [classify_frags, h, h2]

/-! Claim theorems. -/

/-- Claim C2 (counterexample): the spec's concrete scenario — sites
`[100, 200, 300]`, `rest_site_len = 10`, interval `(150, 160)` — violates
the precondition `start < end - rest_site_len - 1` (150 is not below 149),
so `find_frag` raises AssertionError instead of returning fragment 1 with
side End. -/
theorem find_frag_midpoint_scenario_counterexample :
    find_frag [100, 200, 300] 150 160 10 = Except.error PyErr.assertionError ∧
    find_frag [100, 200, 300] 150 160 10 ≠ Except.ok (1, Side.End) := by
  decide

/-- Claim C2 (amended): with the interval widened to `(150, 170)` so the
precondition holds, `find_frag` on sites `[100, 200, 300]` with
`rest_site_len = 10` returns fragment index 1 with side End, by midpoint
distance (`mid = 160`, distances 60 vs 40). -/
theorem find_frag_midpoint_scenario_amended :
    find_frag [100, 200, 300] 150 170 10 = Except.ok (1, Side.End) := by
  decide

/-- Claim C3 (code bug): for the interval `(350, 400)` lying fully right of
the last restriction site of `[100, 200, 300]` (both derived search points
at or beyond 300), `find_frag` raises IndexError — the eager read
`sites[frag_idx]` with `frag_idx = len(sites)` fires before the dead
`frag_idx == sites.shape[0]` branch can return `(len(sites), Start)`. -/
theorem find_frag_right_of_last_raises :
    find_frag [100, 200, 300] 350 400 10 = Except.error PyErr.indexError := by
  decide

/-- Claim C4: for every non-empty sites array and interval satisfying the
precondition that lies fully left of the first restriction site (both
derived search points strictly below every site), `find_frag` returns
fragment index 0 with side End. -/
theorem find_frag_left_of_first (sites : List Int) (start end_ rsl : Int)
    (hne : sites ≠ [])
    (hpre : start < end_ - rsl - 1)
    (hs : ∀ x ∈ sites, start < x)
    (he : ∀ x ∈ sites, end_ - rsl - 1 < x) :
    find_frag sites start end_ rsl = Except.ok (0, Side.End) := by
  have hss : searchsorted_right sites start = 0 :=
    searchsorted_right_eq_zero sites start hs
  have hse : searchsorted_right sites (end_ - rsl - 1) = 0 :=
    searchsorted_right_eq_zero sites (end_ - rsl - 1) he
  obtain ⟨a, ha⟩ := npGet_neg_one_ok sites hne
  obtain ⟨b, hb⟩ := npGet_nat_ok sites 0 (List.length_pos.mpr hne)
  rw [Nat.cast_zero] at hb
  simp only [find_frag, if_pos hpre, hss, hse, Nat.cast_zero, zero_sub]
  simp [ha, hb]

/-- Claim C4 witness: a concrete interval left of every site. -/
theorem find_frag_left_of_first_witness :
    find_frag [100, 200, 300] 10 30 10 = Except.ok (0, Side.End) :=
  find_frag_left_of_first [100, 200, 300] 10 30 10 (by decide) (by decide)
    (by decide) (by decide)

/-- Claim C8: in the same-gap case of `find_frag` (equal insertion points,
index strictly between 0 and the number of sites), the returned side is
Start exactly when `mid - sites[idx-1] < sites[idx] - mid` with
`mid = (start + end) // 2`; in particular equal distances give End. -/
theorem find_frag_same_gap_tiebreak (sites : List Int) (start end_ rsl : Int)
    (idx : Nat) (a b : Int)
    (hpre : start < end_ - rsl - 1)
    (hs : searchsorted_right sites start = idx)
    (he : searchsorted_right sites (end_ - rsl - 1) = idx)
    (h0 : 0 < idx) (hlen : idx < sites.length)
    (ha : sites.get? (idx - 1) = some a) (hb : sites.get? idx = some b) :
    find_frag sites start end_ rsl =
      Except.ok (idx,
        if Int.fdiv (start + end_) 2 - a < b - Int.fdiv (start + end_) 2
        then Side.Start else Side.End) := by
  have hga : npGet sites ((idx : Int) - 1) = Except.ok a := by
    have hj : npIndex sites ((idx : Int) - 1) = (idx : Int) - 1 :=
      npIndex_of_nonneg _ _ (by omega)
    exact npGet_ok_of_get? sites _ a (by omega)
      (by rw [hj, show ((idx : Int) - 1).toNat = idx - 1 by omega, ha])
  have hgb : npGet sites (idx : Int) = Except.ok b := by
    have hj : npIndex sites (idx : Int) = (idx : Int) :=
      npIndex_of_nonneg _ _ (by omega)
    exact npGet_ok_of_get? sites _ b (by omega)
      (by rw [hj, show ((idx : Int)).toNat = idx by omega, hb])
  have hne0 : ¬(idx = 0) := by omega
  have hnel : ¬(idx = sites.length) := by omega
  simp only [find_frag, if_pos hpre, hs, he, hga, hgb, if_neg hne0, if_neg hnel]
  by_cases hc : Int.fdiv (start + end_) 2 - a < b - Int.fdiv (start + end_) 2
  · simp [hc]
  · simp [hc]

/-- Claim C8 witness: in the gap `(100, 200)` the interval `(140, 160)` has
midpoint 150, equidistant from both bounding sites, so the tie resolves to
the End branch. -/
theorem find_frag_same_gap_tiebreak_witness :
    find_frag [100, 200, 300] 140 160 10 = Except.ok (1, Side.End) := by
  have h := find_frag_same_gap_tiebreak [100, 200, 300] 140 160 10 1 100 200
    (by decide) (by decide) (by decide) (by decide) (by decide) (by decide) (by decide)
  rw [h]
  decide

/-- Claim C1: on the intra-chromosomal mapping path (cross-chromosome fast
path and distance short-circuit not taken, both `find_frag` calls
succeeding), `bedpe_type` returns self-ligation exactly for equal fragment
indices, re-ligation exactly for `frag2.index - frag1.index = 1` with
`frag2` on side Start and `frag1` on side End, and otherwise normal with
both fragment references reported. -/
theorem bedpe_type_intra_classification (rest_sites : List (String × List Int))
    (it : Bedpe) (t rsl : Int) (sites : List Int) (f1 f2 : Frag)
    (hchr : it.chr1 = it.chr2)
    (hpath : ¬(|it.start1 - it.start2| > t ∧ t ≠ -1))
    (hlk : lookupChr rest_sites it.chr1 = Except.ok sites)
    (h1 : find_frag sites it.start1 it.end1 rsl = Except.ok f1)
    (h2 : find_frag sites it.start2 it.end2 rsl = Except.ok f2) :
    (bedpe_type rest_sites it t rsl =
        Except.ok ("self-ligation", some f1, some f2) ↔ f1.1 = f2.1) ∧
    (bedpe_type rest_sites it t rsl =
        Except.ok ("re-ligation", some f1, some f2) ↔
      ((f2.1 : Int) - (f1.1 : Int) = 1 ∧ f2.2 = Side.Start ∧ f1.2 = Side.End)) ∧
    ((¬ f1.1 = f2.1 ∧
      ¬((f2.1 : Int) - (f1.1 : Int) = 1 ∧ f2.2 = Side.Start ∧ f1.2 = Side.End)) →
      bedpe_type rest_sites it t rsl =
        Except.ok ("normal", some f1, some f2)) := by
  have hmain := bedpe_type_intra_eq rest_sites it t rsl sites f1 f2
    hchr hpath hlk h1 h2
  rw [hmain]
  refine ⟨?_, ?_, ?_⟩
  · simp only [Except.ok.injEq, Prod.mk.injEq, and_true]
    exact (classify_frags_eq_self f1 f2)
  · simp only [Except.ok.injEq, Prod.mk.injEq, and_true]
    exact (classify_frags_eq_re f1 f2)
  · intro hcond
    simp only [Except.ok.injEq, Prod.mk.injEq, and_true]
    exact (classify_frags_eq_normal f1 f2).mpr hcond

/-- Claim C1 witness: two ends on adjacent fragments touching the shared
boundary from the end and start sides, classified re-ligation. -/
theorem bedpe_type_intra_classification_witness :
    bedpe_type [("c", [100, 200, 300])] ⟨"c", 150, 170, "c", 210, 230, []⟩ 500 10 =
      Except.ok ("re-ligation", some (1, Side.End), some (2, Side.Start)) := by
  have h := bedpe_type_intra_classification [("c", [100, 200, 300])]
    ⟨"c", 150, 170, "c", 210, 230, []⟩ 500 10 [100, 200, 300]
    (1, Side.End) (2, Side.Start)
    rfl (by decide) (by decide) (by decide) (by decide)
  exact h.2.1.mpr (by decide)

/-- Claim C5: for a cross-chromosome pair, `bedpe_type` returns normal with
no fragments when `threshold_span ≠ -1` (no lookup, no binary search), and
with both fragment references populated when `threshold_span = -1` and the
lookups and `find_frag` calls succeed. -/
theorem bedpe_type_inter (rest_sites : List (String × List Int)) (it : Bedpe)
    (t rsl : Int) (hchr : it.chr1 ≠ it.chr2) :
    (t ≠ -1 → bedpe_type rest_sites it t rsl = Except.ok ("normal", none, none)) ∧
    (t = -1 → ∀ s1 f1 s2 f2,
      lookupChr rest_sites it.chr1 = Except.ok s1 →
      find_frag s1 it.start1 it.end1 rsl = Except.ok f1 →
      lookupChr rest_sites it.chr2 = Except.ok s2 →
      find_frag s2 it.start2 it.end2 rsl = Except.ok f2 →
      bedpe_type rest_sites it t rsl =
        Except.ok ("normal", some f1, some f2)) := by
  constructor
  · intro ht
    simp only [bedpe_type, if_pos hchr, if_pos ht]
  · intro ht s1 f1 s2 f2 hl1 hf1 hl2 hf2
    have ht' : ¬ (t ≠ -1) := not_not_intro ht
    simp only [bedpe_type, if_pos hchr, if_neg ht', hl1, hf1, hl2, hf2]

/-- Claim C5 witness: with `threshold_span = 1000` the cross-chromosome
pair is passed through unmapped; with the force-check sentinel `-1` both
fragment references are populated and the classification stays normal. -/
theorem bedpe_type_inter_witness :
    bedpe_type [("a", [100, 200, 300]), ("b", [500])]
        ⟨"a", 150, 170, "b", 50, 70, []⟩ 1000 10 =
      Except.ok ("normal", none, none) ∧
    bedpe_type [("a", [100, 200, 300]), ("b", [500])]
        ⟨"a", 150, 170, "b", 50, 70, []⟩ (-1) 10 =
      Except.ok ("normal", some (1, Side.End), some (0, Side.End)) := by
  constructor
  · exact (bedpe_type_inter [("a", [100, 200, 300]), ("b", [500])]
      ⟨"a", 150, 170, "b", 50, 70, []⟩ 1000 10 (by decide)).1 (by decide)
  · exact (bedpe_type_inter [("a", [100, 200, 300]), ("b", [500])]
      ⟨"a", 150, 170, "b", 50, 70, []⟩ (-1) 10 (by decide)).2 rfl
      [100, 200, 300] (1, Side.End) [500] (0, Side.End)
      (by decide) (by decide) (by decide) (by decide)

/-- Claim C6 (counterexample): with the force-check sentinel
`threshold_span = -1`, a same-chromosome pair has
`|start1 - start2| = 0 > -1`, yet `bedpe_type` does map both ends and
classifies the pair self-ligation — not normal with both fragments None as
the claim states for every pair with span above the threshold. -/
theorem bedpe_type_span_gt_threshold_counterexample :
    |(150 : Int) - 150| > -1 ∧
    bedpe_type [("c", [100, 200, 300])] ⟨"c", 150, 170, "c", 150, 170, []⟩ (-1) 10 =
      Except.ok ("self-ligation", some (1, Side.End), some (1, Side.End)) ∧
    bedpe_type [("c", [100, 200, 300])] ⟨"c", 150, 170, "c", 150, 170, []⟩ (-1) 10 ≠
      Except.ok ("normal", none, none) :=
  ⟨by decide, by decide, by decide⟩

/-- Claim C6 (amended): for every same-chromosome pair with
`|start1 - start2| > threshold_span` AND `threshold_span ≠ -1`,
`bedpe_type` returns normal with both fragments None — for any
restriction-site index, including one not containing the chromosome, so no
lookup or binary search is performed. -/
theorem bedpe_type_safe_span (rest_sites : List (String × List Int)) (it : Bedpe)
    (t rsl : Int)
    (hchr : it.chr1 = it.chr2)
    (hspan : |it.start1 - it.start2| > t) (ht : t ≠ -1) :
    bedpe_type rest_sites it t rsl = Except.ok ("normal", none, none) := by
  have hc : ¬ (it.chr1 ≠ it.chr2) := not_not_intro hchr
  simp only [bedpe_type, if_neg hc, if_pos (And.intro hspan ht)]

/-- Claim C6 witness: a distant same-chromosome pair is passed through
unmapped even though the index is empty. -/
theorem bedpe_type_safe_span_witness :
    bedpe_type [] ⟨"q", 0, 20, "q", 5000, 5020, []⟩ 1000 10 =
      Except.ok ("normal", none, none) :=
  bedpe_type_safe_span [] ⟨"q", 0, 20, "q", 5000, 5020, []⟩ 1000 10
    rfl (by decide) (by decide)

/-- Claim C7 (counterexample): a record whose chromosome is absent from the
index but whose span exceeds the threshold takes the fast path without any
lookup: the worker writes one output line and increments the normal
counter instead of skipping the record. -/
theorem worker_absent_chromosome_fastpath_counterexample :
    lookupChr [] "m" = Except.error PyErr.keyError ∧
    (process_item [] 1000 10 initWorkerState ⟨"m", 0, 20, "m", 5000, 5020, []⟩).map
        (fun s => (s.out_lines.length, s.n_normal, s.n_sel, s.n_re)) =
      Except.ok (1, 1, 0, 0) := by
  decide

/-- Claim C7 (amended): a record whose chromosome is absent from the index
is skipped — no output line, no counter change — whenever classification
actually attempts the lookup, because the KeyError is caught by the worker.
The first conjunct covers a first-chromosome lookup failing on either
lookup-attempting path (same chromosome with the safe-span short-circuit
not taken, or cross-chromosome with the force-check sentinel `-1`); the
second covers a cross-chromosome forced-mapping record whose second
chromosome is the absent one. -/
theorem worker_skips_absent_chromosome (rest_sites : List (String × List Int))
    (t rsl : Int) (st : WorkerState) (it : Bedpe) :
    ((it.chr1 = it.chr2 ∧ ¬(|it.start1 - it.start2| > t ∧ t ≠ -1)) ∨
       (it.chr1 ≠ it.chr2 ∧ t = -1) →
      lookupChr rest_sites it.chr1 = Except.error PyErr.keyError →
      bedpe_type rest_sites it t rsl = Except.error PyErr.keyError ∧
      process_item rest_sites t rsl st it = Except.ok st) ∧
    (it.chr1 ≠ it.chr2 → t = -1 → ∀ s1 f1,
      lookupChr rest_sites it.chr1 = Except.ok s1 →
      find_frag s1 it.start1 it.end1 rsl = Except.ok f1 →
      lookupChr rest_sites it.chr2 = Except.error PyErr.keyError →
      bedpe_type rest_sites it t rsl = Except.error PyErr.keyError ∧
      process_item rest_sites t rsl st it = Except.ok st) := by
  have skip : bedpe_type rest_sites it t rsl = Except.error PyErr.keyError →
      process_item rest_sites t rsl st it = Except.ok st := fun h => by
    simp only [process_item, h]
  constructor
  · rintro (⟨hchr, hpath⟩ | ⟨hchr, ht⟩) habs
    · have hc : ¬ (it.chr1 ≠ it.chr2) := not_not_intro hchr
      have hb : bedpe_type rest_sites it t rsl = Except.error PyErr.keyError := by
        simp only [bedpe_type, if_neg hc, if_neg hpath, habs]
      exact ⟨hb, skip hb⟩
    · have ht' : ¬ (t ≠ -1) := not_not_intro ht
      have hb : bedpe_type rest_sites it t rsl = Except.error PyErr.keyError := by
        simp only [bedpe_type, if_pos hchr, if_neg ht', habs]
      exact ⟨hb, skip hb⟩
  · intro hchr ht s1 f1 hl1 hf1 hl2
    have ht' : ¬ (t ≠ -1) := not_not_intro ht
    have hb : bedpe_type rest_sites it t rsl = Except.error PyErr.keyError := by
      simp only [bedpe_type, if_pos hchr, if_neg ht', hl1, hf1, hl2]
    exact ⟨hb, skip hb⟩

/-- Claim C7 witness: three concrete lookup-attempting records on an absent
chromosome leave the worker state untouched — a close same-chromosome
pair, a cross-chromosome forced-mapping pair with the first chromosome
absent, and a cross-chromosome forced-mapping pair with the second
chromosome absent. -/
theorem worker_skips_absent_chromosome_witness :
    (bedpe_type [("a", [100])] ⟨"m", 150, 170, "m", 160, 180, []⟩ 1000 10 =
        Except.error PyErr.keyError ∧
      process_item [("a", [100])] 1000 10 initWorkerState
        ⟨"m", 150, 170, "m", 160, 180, []⟩ = Except.ok initWorkerState) ∧
    (bedpe_type [("a", [100])] ⟨"m", 150, 170, "a", 160, 180, []⟩ (-1) 10 =
        Except.error PyErr.keyError ∧
      process_item [("a", [100])] (-1) 10 initWorkerState
        ⟨"m", 150, 170, "a", 160, 180, []⟩ = Except.ok initWorkerState) ∧
    (bedpe_type [("a", [100, 200])] ⟨"a", 120, 140, "m", 160, 180, []⟩ (-1) 10 =
        Except.error PyErr.keyError ∧
      process_item [("a", [100, 200])] (-1) 10 initWorkerState
        ⟨"a", 120, 140, "m", 160, 180, []⟩ = Except.ok initWorkerState) := by
  refine ⟨?_, ?_, ?_⟩
  · exact (worker_skips_absent_chromosome [("a", [100])] 1000 10 initWorkerState
      ⟨"m", 150, 170, "m", 160, 180, []⟩).1 (Or.inl ⟨rfl, by decide⟩) (by decide)
  · exact (worker_skips_absent_chromosome [("a", [100])] (-1) 10 initWorkerState
      ⟨"m", 150, 170, "a", 160, 180, []⟩).1 (Or.inr ⟨by decide, rfl⟩) (by decide)
  · exact (worker_skips_absent_chromosome [("a", [100, 200])] (-1) 10 initWorkerState
      ⟨"a", 120, 140, "m", 160, 180, []⟩).2 (by decide) rfl [100, 200]
      (1, Side.Start) (by decide) (by decide) (by decide)

/-- Claim C9 (counterexample): swapping the two ends does not preserve the
classification: a pair classified re-ligation becomes normal when its ends
are swapped, because the adjacency rule requires index difference exactly
`+1` in the end-then-start orientation. -/
theorem bedpe_type_swap_counterexample :
    bedpe_type [("d", [1000, 2000, 3000])]
        ⟨"d", 1500, 1700, "d", 2100, 2300, []⟩ 1000 10 =
      Except.ok ("re-ligation", some (1, Side.End), some (2, Side.Start)) ∧
    bedpe_type [("d", [1000, 2000, 3000])]
        (swapBedpe ⟨"d", 1500, 1700, "d", 2100, 2300, []⟩) 1000 10 =
      Except.ok ("normal", some (2, Side.Start), some (1, Side.End)) :=
  ⟨by decide, by decide⟩

/-- Claim C9 (amended): on the intra-chromosomal mapping path,
self-ligation detection is invariant under swapping the two ends (with the
fragment references swapped accordingly), but re-ligation detection is
direction-dependent: a pair classified re-ligation has its swapped pair
classified normal. -/
theorem bedpe_type_swap_partial_symmetry (rest_sites : List (String × List Int))
    (it : Bedpe) (t rsl : Int) (sites : List Int) (f1 f2 : Frag)
    (hchr : it.chr1 = it.chr2)
    (hpath : ¬(|it.start1 - it.start2| > t ∧ t ≠ -1))
    (hlk : lookupChr rest_sites it.chr1 = Except.ok sites)
    (h1 : find_frag sites it.start1 it.end1 rsl = Except.ok f1)
    (h2 : find_frag sites it.start2 it.end2 rsl = Except.ok f2) :
    (bedpe_type rest_sites it t rsl =
        Except.ok ("self-ligation", some f1, some f2) ↔
      bedpe_type rest_sites (swapBedpe it) t rsl =
        Except.ok ("self-ligation", some f2, some f1)) ∧
    (bedpe_type rest_sites it t rsl =
        Except.ok ("re-ligation", some f1, some f2) →
      bedpe_type rest_sites (swapBedpe it) t rsl =
        Except.ok ("normal", some f2, some f1)) := by
  have e1 := bedpe_type_intra_eq rest_sites it t rsl sites f1 f2
    hchr hpath hlk h1 h2
  have e2 := bedpe_type_intra_eq rest_sites (swapBedpe it) t rsl sites f2 f1
    (by simpa [swapBedpe] using hchr.symm)
    (by simpa [swapBedpe, abs_sub_comm] using hpath)
    (by simpa [swapBedpe, hchr] using hlk)
    (by simpa [swapBedpe] using h2)
    (by simpa [swapBedpe] using h1)
  rw [e1, e2]
  constructor
  · simp only [Except.ok.injEq, Prod.mk.injEq, and_true]
    rw [classify_frags_eq_self, classify_frags_eq_self]
    exact eq_comm
  · simp only [Except.ok.injEq, Prod.mk.injEq, and_true]
    intro hre
    obtain ⟨hd, hs2, he1⟩ := (classify_frags_eq_re f1 f2).mp hre
    refine (classify_frags_eq_normal f2 f1).mpr ⟨by omega, ?_⟩
    rintro ⟨hd', -, -⟩
    omega

/-- Claim C9 witness: a self-ligation pair keeps its classification under
the swap, via the symmetry direction of the amended statement. -/
theorem bedpe_type_swap_partial_symmetry_witness :
    bedpe_type [("d", [1000, 2000, 3000])]
        (swapBedpe ⟨"d", 1200, 1400, "d", 1500, 1700, []⟩) 1000 10 =
      Except.ok ("self-ligation", some (1, Side.End), some (1, Side.Start)) := by
  have h := bedpe_type_swap_partial_symmetry [("d", [1000, 2000, 3000])]
    ⟨"d", 1200, 1400, "d", 1500, 1700, []⟩ 1000 10 [1000, 2000, 3000]
    (1, Side.Start) (1, Side.End)
    rfl (by decide) (by decide) (by decide) (by decide)
  exact h.1.mp (by decide)

/-- Claim C10: whenever `bedpe_type` returns normally, the two fragment
slots of the result are both None or both populated. -/
theorem bedpe_type_frags_both_or_none (rest_sites : List (String × List Int))
    (it : Bedpe) (t rsl : Int) (res : String × Option Frag × Option Frag)
    (h : bedpe_type rest_sites it t rsl = Except.ok res) :
    (res.2.1 = none ↔ res.2.2 = none) := by
  simp only [bedpe_type] at h
  repeat' split at h
  all_goals cases h <;> simp

/-- Claim C10 witness: a self-ligation result carries both fragment
references. -/
theorem bedpe_type_frags_both_or_none_witness :
    ((some ((0 : Nat), Side.End) : Option Frag) = none ↔
      (some ((0 : Nat), Side.End) : Option Frag) = none) :=
  bedpe_type_frags_both_or_none [("x", [50])] ⟨"x", 0, 20, "x", 5, 25, []⟩ 1000 10
    ("self-ligation", some (0, Side.End), some (0, Side.End)) (by decide)
